import Mathlib

/-!
Shallow embedding of the Backend Lifecycle & Model Controller of the
VideoRAG / Vimo desktop repository, together with the Download Manager
handlers, the `check-model-files` handler, the remote-backend handlers and
the `RemoteVideoService` configuration merging.

Sources embedded:
* `src/Vimo-desktop/src/preload/index.ts` — the `useVideoRAGService` hook
  (service state, loading flags, the six controller operations);
* `src/unnamed/part_001` — `registerModelHandlers`
  (`check-model-files`, `download-internvideo2`);
* `src/Vimo-desktop/src/main/handlers/remote-backend-handlers.ts`;
* `src/Vimo-desktop/src/renderer/src/services/RemoteVideoService.ts`.

Asynchronous JavaScript is embedded by splitting each `async` controller
operation at its single `await` into an entry segment (the synchronous code
up to and including issuing the backend call) and a settle segment (the
synchronous continuation that processes the resolved result, including the
`finally` block).  Backend responses, promise rejections and filesystem
outcomes are passed in explicitly as data.
-/

namespace VideoRAG

/-! ### Data model of the `useVideoRAGService` hook -/

/-- `ServiceState` of the hook: `{isRunning, internvideo2Loaded, message?, error?}`. -/
structure ServiceState where
  isRunning : Bool
  internvideo2Loaded : Bool
  message : Option String
  error : Option String
deriving DecidableEq, Repr

/-- The hook's `useState` initializer: both booleans false, no message, no error. -/
def initialServiceState : ServiceState :=
  { isRunning := false, internvideo2Loaded := false, message := none, error := none }

/-- The hook's `loading` record of per-operation busy flags. -/
structure LoadingFlags where
  starting : Bool
  stopping : Bool
  checkingService : Bool
  loadingInternVideo2 : Bool
  releasingInternVideo2 : Bool
deriving DecidableEq, Repr

/-- The hook's `useState` initializer for `loading`: all five flags false. -/
def initialLoadingFlags : LoadingFlags :=
  { starting := false, stopping := false, checkingService := false,
    loadingInternVideo2 := false, releasingInternVideo2 := false }

/-- Resolution of one `window.api.videorag.*` service-control call as observed
by the hook: `{success: true, message?}`, `{success: false, error?}`, or the
promise rejecting (which the hook's `catch` receives). -/
inductive SvcResult where
  | ok (message : Option String)
  | err (error : Option String)
  | thrown
deriving DecidableEq, Repr

/-- Payload of a successful `systemStatus()` response as read by
`checkServiceStatus`: whether `data.total_sessions` is defined, the
`data.global_config_set` flag, and `data.internvideo2_loaded || false`. -/
structure SystemStatusData where
  totalSessionsDefined : Bool
  globalConfigSet : Bool
  internvideo2Loaded : Bool
deriving DecidableEq, Repr

/-- Resolution of `window.api.videorag.systemStatus()`: success with or
without a `data` payload, failure with an optional `error` string, or a
rejected promise. -/
inductive StatusResult where
  | ok (d : Option SystemStatusData)
  | err (error : Option String)
  | thrown
deriving DecidableEq, Repr

/-- Resolution of `window.api.videorag.internvideo2Status()`: success
carrying `data?.loaded` (absent data and absent field collapse to `none`),
failure, or a rejected promise. -/
inductive IV2StatusResult where
  | ok (loaded : Option Bool)
  | err
  | thrown
deriving DecidableEq, Repr

/-- JavaScript `x || d` on an optional string, where the empty string is falsy. -/
def jsOrString (x : Option String) (d : String) : String :=
  match x with
  | none => d
  | some s => if s = "" then d else s

/-- `startService`'s `setServiceState` updates: on success
`{...prev, isRunning: true, message: result.message}`; on `success: false`
`{...prev, isRunning: false, error: result.error}`; in `catch`
`{...prev, isRunning: false, error: 'Failed to start service'}`. -/
def startServiceUpdate (s : ServiceState) : SvcResult → ServiceState
  | .ok m => { s with isRunning := true, message := m }
  | .err e => { s with isRunning := false, error := e }
  | .thrown => { s with isRunning := false, error := some "Failed to start service" }

/-- `stopService`'s `setServiceState` updates: every branch sets
`isRunning: false`; none of them touches `internvideo2Loaded`. -/
def stopServiceUpdate (s : ServiceState) : SvcResult → ServiceState
  | .ok m => { s with isRunning := false, message := m }
  | .err e => { s with isRunning := false, error := e }
  | .thrown => { s with isRunning := false, error := some "Failed to stop service" }

/-- `loadInternVideo2`'s `setServiceState` updates: on success
`internvideo2Loaded: true` with a fixed message (no check of `isRunning`);
otherwise only `error` is written. -/
def loadInternVideo2Update (s : ServiceState) : SvcResult → ServiceState
  | .ok _ => { s with internvideo2Loaded := true,
                      message := some "InternVideo2 model loaded successfully" }
  | .err e => { s with error := e }
  | .thrown => { s with error := some "Failed to load InternVideo2 model" }

/-- `releaseInternVideo2`'s `setServiceState` updates. -/
def releaseInternVideo2Update (s : ServiceState) : SvcResult → ServiceState
  | .ok _ => { s with internvideo2Loaded := false,
                      message := some "InternVideo2 model released successfully" }
  | .err e => { s with error := e }
  | .thrown => { s with error := some "Failed to release InternVideo2 model" }

/-- `checkServiceStatus`'s `setServiceState` updates: with
`result.success && result.data`, `isRunning` is derived from
`total_sessions !== undefined || global_config_set` and `internvideo2Loaded`
from `data.internvideo2_loaded || false`; the `else` branch and the `catch`
force both to false and record an error. -/
def checkServiceStatusUpdate (s : ServiceState) : StatusResult → ServiceState
  | .ok (some d) =>
      { s with isRunning := d.totalSessionsDefined || d.globalConfigSet,
               internvideo2Loaded := d.internvideo2Loaded,
               message := some (if d.internvideo2Loaded then
                   "Service ready for video processing"
                 else "Service running - InternVideo2 not loaded") }
  | .ok none =>
      { s with isRunning := false, internvideo2Loaded := false,
               error := some "Failed to get system status" }
  | .err e =>
      { s with isRunning := false, internvideo2Loaded := false,
               error := some (jsOrString e "Failed to get system status") }
  | .thrown =>
      { s with isRunning := false, internvideo2Loaded := false,
               error := some "Failed to check service status" }

/-- `checkInternVideo2Status`'s update: on success
`internvideo2Loaded := result.data?.loaded || false`; on failure or a
rejected promise the state is untouched (the `catch` only logs). -/
def checkInternVideo2StatusUpdate (s : ServiceState) : IV2StatusResult → ServiceState
  | .ok loaded => { s with internvideo2Loaded := loaded.getD false }
  | .err => s
  | .thrown => s

/-- One complete controller operation of the hook, carrying the backend's
resolution for its single `await`. -/
inductive ControllerOp where
  | startService (r : SvcResult)
  | stopService (r : SvcResult)
  | loadInternVideo2 (r : SvcResult)
  | releaseInternVideo2 (r : SvcResult)
  | checkServiceStatus (r : StatusResult)
  | checkInternVideo2Status (r : IV2StatusResult)
deriving DecidableEq, Repr

/-- Effect of one whole controller operation on `ServiceState` (the loading
flags are set and cleared within the same operation and are handled by the
segment-level model below). -/
def applyOp (s : ServiceState) : ControllerOp → ServiceState
  | .startService r => startServiceUpdate s r
  | .stopService r => stopServiceUpdate s r
  | .loadInternVideo2 r => loadInternVideo2Update s r
  | .releaseInternVideo2 r => releaseInternVideo2Update s r
  | .checkServiceStatus r => checkServiceStatusUpdate s r
  | .checkInternVideo2Status r => checkInternVideo2StatusUpdate s r

/-- Sequential execution of a list of controller operations. -/
def runOps (s : ServiceState) (ops : List ControllerOp) : ServiceState :=
  ops.foldl applyOp s

/-- The boolean the hook returns from `startService` / `stopService` /
`loadInternVideo2` / `releaseInternVideo2`: `true` exactly on
`result.success`, `false` on failure and in the `catch`. -/
def hookReturnValue : SvcResult → Bool
  | .ok _ => true
  | .err _ => false
  | .thrown => false

/-! ### Segment-level model of the hook (event-loop interleaving)

Global state visible to all concurrently pending hook operations: the
believed `ServiceState`, the `loading` flags, and a count of the
`window.api.videorag.*` backend invocations issued so far. -/

structure HookState where
  svc : ServiceState
  flags : LoadingFlags
  calls : Nat
deriving DecidableEq, Repr

/-- Hook state at mount: initial service state, all flags down, no backend
call issued yet. -/
def initialHookState : HookState :=
  { svc := initialServiceState, flags := initialLoadingFlags, calls := 0 }

/-- Entry segment of `startService`: `setLoading({...prev, starting: true})`
followed by issuing `window.api.videorag.startService()`.  Nothing here
inspects `loading.starting`; the backend call is issued unconditionally. -/
def startServiceEntry (g : HookState) : HookState :=
  { g with flags := { g.flags with starting := true }, calls := g.calls + 1 }

/-- Settle segment of `startService`: process the resolved result, then the
`finally` clears `starting`. -/
def startServiceSettle (g : HookState) (r : SvcResult) : HookState :=
  { g with svc := startServiceUpdate g.svc r,
           flags := { g.flags with starting := false } }

/-- Entry segment of `loadInternVideo2`: set `loadingInternVideo2` and issue
`window.api.videorag.loadInternVideo2()`.  No check of `serviceState` (in
particular of `isRunning`) or of any flag precedes the call. -/
def loadInternVideo2Entry (g : HookState) : HookState :=
  { g with flags := { g.flags with loadingInternVideo2 := true }, calls := g.calls + 1 }

/-- Settle segment of `loadInternVideo2`. -/
def loadInternVideo2Settle (g : HookState) (r : SvcResult) : HookState :=
  { g with svc := loadInternVideo2Update g.svc r,
           flags := { g.flags with loadingInternVideo2 := false } }

/-- Entry segment of `checkServiceStatus`:
`setLoading({...prev, checkingService: true})`, then issue
`window.api.videorag.systemStatus()`. -/
def checkServiceStatusEntry (g : HookState) : HookState :=
  { g with flags := { g.flags with checkingService := true }, calls := g.calls + 1 }

/-- Settle segment of `checkServiceStatus`: process the result, then the
`finally` clears `checkingService`. -/
def checkServiceStatusSettle (g : HookState) (r : StatusResult) : HookState :=
  { g with svc := checkServiceStatusUpdate g.svc r,
           flags := { g.flags with checkingService := false } }

/-- Entry segment of `checkInternVideo2Status`: it calls `setLoading`
nowhere, so only the backend invocation is issued. -/
def checkInternVideo2StatusEntry (g : HookState) : HookState :=
  { g with calls := g.calls + 1 }

/-- Settle segment of `checkInternVideo2Status`: updates the service state
only; no flag is touched on any path. -/
def checkInternVideo2StatusSettle (g : HookState) (r : IV2StatusResult) : HookState :=
  { g with svc := checkInternVideo2StatusUpdate g.svc r }

/-! ### `RemoteVideoService.checkHealth` -/

/-- Outcome of `fetch(baseUrl + '/api/health')`: a response with its `ok`
bit, or a network/connection failure (the promise rejecting). -/
inductive FetchOutcome where
  | response (ok : Bool)
  | networkError
deriving DecidableEq, Repr

/-- `checkHealth`: returns `response.ok`, and `false` from the `catch` on
any fetch failure.  Totality of this function is the embedding of "never
throws". -/
def checkHealth : FetchOutcome → Bool
  | .response ok => ok
  | .networkError => false

/-! ### `registerModelHandlers` — the `download-internvideo2` handler

The filesystem is abstracted to the three paths the handler touches;
`path.join` is modelled with the `/` separator. -/

/-- Existence of the three paths the handler touches: `storeDirectory`,
`storeDirectory/checkpoints` and
`storeDirectory/checkpoints/InternVideo2_1B_S2.pth`. -/
structure FsState where
  storeDirExists : Bool
  checkpointsDirExists : Bool
  modelFileExists : Bool
deriving DecidableEq, Repr

/-- How the response stream ends once a response has arrived: the write
stream's `finish` event, or a write-stream `error` event. -/
inductive StreamOutcome where
  | finished
  | writeError (msg : String)
deriving DecidableEq, Repr

/-- Outcome of `https.get`: a response (status code, status message, and the
stream's fate), a request-level `error` event, or the 300 000 ms
`request.setTimeout` inactivity timeout firing. -/
inductive NetOutcome where
  | response (status : Nat) (statusMessage : String) (stream : StreamOutcome)
  | requestError (msg : String)
  | timeout
deriving DecidableEq, Repr

/-- The `{success, message?, error?}` object the handler resolves with. -/
structure DownloadResult where
  success : Bool
  message : Option String
  error : Option String
deriving DecidableEq, Repr

/-- One run of the `download-internvideo2` handler: the resulting
filesystem, the resolved result, and how many HTTP requests were issued. -/
structure DownloadRun where
  fs : FsState
  result : DownloadResult
  requests : Nat
deriving DecidableEq, Repr

/-- Shared cleanup of the four failure paths:
`rmSync(checkpointsDir, {recursive: true, force: true})`, which removes the
checkpoints directory and everything under it (the partial model file
included). -/
def removeCheckpointsDir (fs : FsState) : FsState :=
  { fs with checkpointsDirExists := false, modelFileExists := false }

/-- The `download-internvideo2` handler.  It first ensures `storeDirectory`
and `storeDirectory/checkpoints` exist (`mkdirSync` guarded by
`existsSync`), then short-circuits with success and no request when
`access(internvideo2Path)` succeeds; otherwise it issues exactly one
`https.get`.  A non-200 status, a write-stream error, a request error and
the timeout each remove the whole checkpoints directory before resolving
with `success: false`; a finished stream resolves with success and leaves
the downloaded file in place. -/
def downloadInternVideo2Handler (fs : FsState) (net : NetOutcome) : DownloadRun :=
  let fs1 : FsState :=
    { storeDirExists := true, checkpointsDirExists := true,
      modelFileExists := fs.modelFileExists }
  if fs1.modelFileExists then
    { fs := fs1,
      result := { success := true, message := some "InternVideo2 model already exists",
                  error := none },
      requests := 0 }
  else
    match net with
    | .response status statusMessage stream =>
      if status ≠ 200 then
        { fs := removeCheckpointsDir fs1,
          result := { success := false, message := none,
                      error := some ("HTTP " ++ toString status ++ ": " ++ statusMessage) },
          requests := 1 }
      else
        match stream with
        | .finished =>
          { fs := { fs1 with modelFileExists := true },
            result := { success := true,
                        message := some "InternVideo2 download completed", error := none },
            requests := 1 }
        | .writeError m =>
          { fs := removeCheckpointsDir fs1,
            result := { success := false, message := none, error := some m },
            requests := 1 }
    | .requestError m =>
      { fs := removeCheckpointsDir fs1,
        result := { success := false, message := none, error := some m },
        requests := 1 }
    | .timeout =>
      { fs := removeCheckpointsDir fs1,
        result := { success := false, message := none, error := some "Download timeout" },
        requests := 1 }

/-! ### `registerModelHandlers` — the `check-model-files` handler -/

/-- `join(storeDirectory, 'checkpoints', 'InternVideo2_1B_S2.pth')`. -/
def modelFilePath (storeDirectory : String) : String :=
  storeDirectory ++ "/checkpoints/InternVideo2_1B_S2.pth"

/-- The `{internvideo2}` object the `check-model-files` handler returns. -/
structure CheckModelFilesResult where
  internvideo2 : Bool
deriving DecidableEq, Repr

/-- The `check-model-files` handler, over a filesystem oracle `fsAccess`
standing for `fs/promises`' `access` (success, or rejection with an error).
The inner `try { await access(...) } catch {}` turns any access error into
`internvideo2 = false`, and the outer catch-all returns `{internvideo2:
false}`; totality of this function is the embedding of "never throws". -/
def checkModelFilesHandler (fsAccess : String → Except String Unit)
    (storeDirectory : String) : CheckModelFilesResult :=
  { internvideo2 :=
      match fsAccess (modelFilePath storeDirectory) with
      | .ok _ => true
      | .error _ => false }

/-! ### `remote-backend-handlers.ts` and `RemoteVideoService` -/

/-- The slice of a renderer `File` object the handler reads (`file.name`). -/
structure UploadFile where
  name : String
deriving DecidableEq, Repr

/-- The `{success, error?}` envelope the IPC handlers return. -/
structure IpcEnvelope where
  success : Bool
  error : Option String
deriving DecidableEq, Repr

/-- The fixed refusal text of the `remote-backend:upload-video` handler. -/
def remoteUploadRefusal : String :=
  "Frontend should use RemoteVideoService directly. IPC cannot handle File objects."

/-- The `remote-backend:upload-video` handler: after logging `file.name` it
unconditionally returns the fixed refusal with `success: false`, issuing no
network request.  `onProgress` is received and never called. -/
def remoteUploadVideoHandler {α β : Type} (_file : UploadFile) (_config : α)
    (_onProgress : β) : IpcEnvelope × Nat :=
  ({ success := false, error := some remoteUploadRefusal }, 0)

/-- Caller-supplied processing configuration: the fields the merging code
reads by name (each optional, absence standing for the key being missing or
the whole config being `undefined`), plus the remaining key/value pairs
that only the object spread copies. -/
structure VideoConfig where
  detect_scenes : Option Bool := none
  scene_threshold : Option Rat := none
  min_duration : Option Rat := none
  max_duration : Option Rat := none
  generate_embeddings : Option Bool := none
  target_fps : Option Rat := none
  extra : List (String × String) := []
deriving DecidableEq, Repr

/-- JavaScript `x || d` on an optional number, where `0` is falsy
(JavaScript `NaN`, also falsy, has no counterpart in `Rat` and is not
modelled). -/
def jsOrNum (x : Option Rat) (d : Rat) : Rat :=
  match x with
  | none => d
  | some v => if v = 0 then d else v

/-- JavaScript `x !== false` on an optional boolean: `undefined !== false`
and `true !== false` are true, `false !== false` is false. -/
def jsNotFalse (x : Option Bool) : Bool :=
  match x with
  | none => true
  | some b => b

/-- The `uploadConfig` object `RemoteVideoService.uploadVideo` serializes
into the form data: the spread of the caller's config, then `target_fps: 1`
and the four defaulted fields, each later key overriding the spread.
`generate_embeddings` is not among the later keys, so it survives from the
spread alone. -/
structure SentUploadConfig where
  detect_scenes : Bool
  scene_threshold : Rat
  min_duration : Rat
  max_duration : Rat
  generate_embeddings : Option Bool
  target_fps : Rat
  extra : List (String × String)
deriving DecidableEq, Repr

/-- `uploadVideo`'s `uploadConfig` construction. -/
def uploadConfigOf (c : VideoConfig) : SentUploadConfig :=
  { detect_scenes := jsNotFalse c.detect_scenes
  , scene_threshold := jsOrNum c.scene_threshold 0.2
  , min_duration := jsOrNum c.min_duration 5
  , max_duration := jsOrNum c.max_duration 12
  , generate_embeddings := c.generate_embeddings
  , target_fps := 1
  , extra := c.extra }

/-- The `processConfig` object of the `remote-backend:process-video`
handler: as `uploadConfig`, with `generate_embeddings` additionally
defaulted by `config.generate_embeddings !== false`. -/
structure SentProcessConfig where
  detect_scenes : Bool
  scene_threshold : Rat
  min_duration : Rat
  max_duration : Rat
  generate_embeddings : Bool
  target_fps : Rat
  extra : List (String × String)
deriving DecidableEq, Repr

/-- The `remote-backend:process-video` handler's `processConfig`
construction. -/
def processConfigOf (c : VideoConfig) : SentProcessConfig :=
  { detect_scenes := jsNotFalse c.detect_scenes
  , scene_threshold := jsOrNum c.scene_threshold 0.2
  , min_duration := jsOrNum c.min_duration 5
  , max_duration := jsOrNum c.max_duration 12
  , generate_embeddings := jsNotFalse c.generate_embeddings
  , target_fps := 1
  , extra := c.extra }

/-! ### Helper lemmas -/

/-- JavaScript `x !== false` on an optional boolean equals `getD true`. -/
theorem jsNotFalse_getD (x : Option Bool) : jsNotFalse x = x.getD true := by
  cases x <;> rfl

/-- A run of the download handler that resolves with `success: true` leaves
the model file present on disk. -/
theorem download_ok_file_exists (fs : FsState) (net : NetOutcome)
    (h : (downloadInternVideo2Handler fs net).result.success = true) :
    (downloadInternVideo2Handler fs net).fs.modelFileExists = true := by
  unfold downloadInternVideo2Handler at h ⊢
  by_cases hm : fs.modelFileExists
  · simp [hm]
  · simp only [Bool.not_eq_true] at hm
    simp only [hm, if_false, Bool.false_eq_true] at h ⊢
    cases net with
    | response status sm stream =>
      by_cases hs : status = 200
      · subst hs
        simp only [ne_eq, not_true_eq_false, if_false, reduceIte] at h ⊢
        cases stream with
        | finished => rfl
        | writeError m => simp [removeCheckpointsDir] at h
      · simp [hs, removeCheckpointsDir] at h
    | requestError m => simp [removeCheckpointsDir] at h
    | timeout => simp [removeCheckpointsDir] at h

/-- When the model file already exists, the handler short-circuits: success,
fixed message, zero requests, directories ensured, file untouched. -/
theorem download_exists_run (fs : FsState) (net : NetOutcome)
    (h : fs.modelFileExists = true) :
    downloadInternVideo2Handler fs net =
      { fs := { storeDirExists := true, checkpointsDirExists := true,
                modelFileExists := true },
        result := { success := true,
                    message := some "InternVideo2 model already exists", error := none },
        requests := 0 } := by
  unfold downloadInternVideo2Handler
  simp [h]

/-! ### C1 -/

/-- C1, counterexample: from the initial state, a successful
`loadInternVideo2` alone yields `internvideo2Loaded = true` with
`isRunning = false` (the claimed invariant fails), and a subsequent
successful `stopService` still leaves `internvideo2Loaded = true` (refuting
"a stopService call that succeeds leaves internVideo2Loaded false"). -/
theorem C1_invariant_fails_cex :
    (runOps initialServiceState
        [ControllerOp.loadInternVideo2 (SvcResult.ok none)]).internvideo2Loaded = true
  ∧ (runOps initialServiceState
        [ControllerOp.loadInternVideo2 (SvcResult.ok none)]).isRunning = false
  ∧ (runOps initialServiceState
        [ControllerOp.loadInternVideo2 (SvcResult.ok none),
         ControllerOp.stopService (SvcResult.ok none)]).internvideo2Loaded = true
  ∧ (runOps initialServiceState
        [ControllerOp.loadInternVideo2 (SvcResult.ok none),
         ControllerOp.stopService (SvcResult.ok none)]).isRunning = false :=
  ⟨rfl, rfl, rfl, rfl⟩

/-- C1 (amended): the hook maintains no such invariant.  A successful
`stopService` sets `isRunning := false` but leaves `internvideo2Loaded` at
its prior value, and a successful `loadInternVideo2` sets
`internvideo2Loaded := true` while leaving `isRunning` unchanged (it is
never consulted), so `internvideo2Loaded = true ∧ isRunning = false` is
reachable from the initial state. -/
theorem C1_stop_load_state_effects (s : ServiceState) (m : Option String) :
    (applyOp s (ControllerOp.stopService (SvcResult.ok m))).isRunning = false
  ∧ (applyOp s (ControllerOp.stopService (SvcResult.ok m))).internvideo2Loaded
      = s.internvideo2Loaded
  ∧ (applyOp s (ControllerOp.loadInternVideo2 (SvcResult.ok m))).internvideo2Loaded = true
  ∧ (applyOp s (ControllerOp.loadInternVideo2 (SvcResult.ok m))).isRunning = s.isRunning :=
  ⟨rfl, rfl, rfl, rfl⟩

/-! ### C2 -/

/-- C2, counterexample: in the initial hook state the service dimension is
Stopped (`isRunning = false`), yet `loadInternVideo2` issues its backend
invocation (the call count rises from 0 to 1, refuting "the backend load
endpoint is never contacted"), and when the backend replies with success
the hook returns `true`, not a state-conflict failure. -/
theorem C2_load_while_stopped_contacts_backend_cex :
    initialHookState.svc.isRunning = false
  ∧ (loadInternVideo2Entry initialHookState).calls = 1
  ∧ hookReturnValue (SvcResult.ok none) = true :=
  ⟨rfl, rfl, rfl⟩

/-- C2 (amended): `loadInternVideo2` performs no state check at all: from
every hook state — the Stopped one included — its entry segment issues
exactly one backend invocation without reading or changing the believed
service state, and the value returned to the caller is just the backend's
verdict (`true` whenever the backend reports success). -/
theorem C2_load_no_state_gate (g : HookState) (m : Option String) :
    (loadInternVideo2Entry g).calls = g.calls + 1
  ∧ (loadInternVideo2Entry g).svc = g.svc
  ∧ hookReturnValue (SvcResult.ok m) = true :=
  ⟨rfl, rfl, rfl⟩

/-! ### C3 -/

/-- C3, counterexample: after the first `startService` call's entry segment
`loading.starting = true`, yet running the second call's entry segment from
exactly that state still contacts the Supervisor — the invocation count
reaches 2, and stays 2 after both calls settle.  This refutes both "a
second startService call is rejected immediately without invoking the
Supervisor" and "exactly one invocation reaches the Supervisor". -/
theorem C3_concurrent_start_double_invoke_cex :
    (startServiceEntry initialHookState).flags.starting = true
  ∧ (startServiceEntry (startServiceEntry initialHookState)).calls = 2
  ∧ (startServiceSettle (startServiceSettle
        (startServiceEntry (startServiceEntry initialHookState))
        (SvcResult.ok none)) (SvcResult.ok none)).calls = 2 :=
  ⟨rfl, rfl, rfl⟩

/-- C3 (amended): `startService` never inspects `loading.starting`: from
every hook state — including any with `starting = true` — its entry segment
sets the flag and issues exactly one Supervisor invocation, and settling
issues none; hence two interleaved `startService` calls both reach the
Supervisor (two invocations, not one). -/
theorem C3_start_always_invokes (g : HookState) (r r2 : SvcResult) :
    (startServiceEntry g).calls = g.calls + 1
  ∧ (startServiceEntry g).flags.starting = true
  ∧ (startServiceSettle g r).calls = g.calls
  ∧ (startServiceSettle (startServiceSettle
        (startServiceEntry (startServiceEntry g)) r) r2).calls = g.calls + 2 :=
  ⟨rfl, rfl, rfl, rfl⟩

/-! ### C4 -/

/-- C4: if the destination file already exists the `download-internvideo2`
handler returns success immediately with zero network requests, and after
any run that resolved successfully a further call performs zero network
requests (and succeeds): download is idempotent with presence on disk as
the completion marker. -/
theorem C4_download_short_circuit_idempotent (fs fs2 : FsState)
    (net net2 net3 : NetOutcome)
    (hex : fs.modelFileExists = true)
    (hok : (downloadInternVideo2Handler fs2 net2).result.success = true) :
    (downloadInternVideo2Handler fs net).result.success = true
  ∧ (downloadInternVideo2Handler fs net).requests = 0
  ∧ (downloadInternVideo2Handler
        (downloadInternVideo2Handler fs2 net2).fs net3).requests = 0
  ∧ (downloadInternVideo2Handler
        (downloadInternVideo2Handler fs2 net2).fs net3).result.success = true := by
  have h1 := download_exists_run fs net hex
  have h2 := download_exists_run (downloadInternVideo2Handler fs2 net2).fs net3
    (download_ok_file_exists fs2 net2 hok)
  rw [h1, h2]
  exact ⟨rfl, rfl, rfl, rfl⟩

/-- C4, witness: a filesystem with the model file present short-circuits,
and a fresh filesystem whose download completed needs no second request. -/
theorem C4_download_short_circuit_idempotent_w :
    (downloadInternVideo2Handler ⟨true, true, true⟩ NetOutcome.timeout).result.success = true
  ∧ (downloadInternVideo2Handler ⟨true, true, true⟩ NetOutcome.timeout).requests = 0
  ∧ (downloadInternVideo2Handler
        (downloadInternVideo2Handler ⟨false, false, false⟩
          (NetOutcome.response 200 "OK" StreamOutcome.finished)).fs
        NetOutcome.timeout).requests = 0
  ∧ (downloadInternVideo2Handler
        (downloadInternVideo2Handler ⟨false, false, false⟩
          (NetOutcome.response 200 "OK" StreamOutcome.finished)).fs
        NetOutcome.timeout).result.success = true :=
  C4_download_short_circuit_idempotent ⟨true, true, true⟩ ⟨false, false, false⟩
    NetOutcome.timeout (NetOutcome.response 200 "OK" StreamOutcome.finished)
    NetOutcome.timeout rfl rfl

/-! ### C5 -/

/-- C5: on every failing download run — non-2xx HTTP response (any stream
fate), stream write error, request-level network error, or the fixed
300-second inactivity timeout — the handler removes the entire checkpoints
directory tree (directory and partial file both gone) and resolves with
`success: false`, so no partial artifact can satisfy a later presence
check. -/
theorem C5_download_failure_cleanup (fs : FsState) (status : Nat)
    (sm e : String) (st : StreamOutcome)
    (hfile : fs.modelFileExists = false)
    (hstatus : ¬(200 ≤ status ∧ status < 300)) :
    ((downloadInternVideo2Handler fs (NetOutcome.response status sm st)).result.success = false
      ∧ (downloadInternVideo2Handler fs
          (NetOutcome.response status sm st)).fs.checkpointsDirExists = false
      ∧ (downloadInternVideo2Handler fs
          (NetOutcome.response status sm st)).fs.modelFileExists = false)
  ∧ ((downloadInternVideo2Handler fs
        (NetOutcome.response 200 sm (StreamOutcome.writeError e))).result.success = false
      ∧ (downloadInternVideo2Handler fs
          (NetOutcome.response 200 sm (StreamOutcome.writeError e))).fs.checkpointsDirExists = false
      ∧ (downloadInternVideo2Handler fs
          (NetOutcome.response 200 sm (StreamOutcome.writeError e))).fs.modelFileExists = false)
  ∧ ((downloadInternVideo2Handler fs (NetOutcome.requestError e)).result.success = false
      ∧ (downloadInternVideo2Handler fs
          (NetOutcome.requestError e)).fs.checkpointsDirExists = false
      ∧ (downloadInternVideo2Handler fs (NetOutcome.requestError e)).fs.modelFileExists = false)
  ∧ ((downloadInternVideo2Handler fs NetOutcome.timeout).result.success = false
      ∧ (downloadInternVideo2Handler fs NetOutcome.timeout).fs.checkpointsDirExists = false
      ∧ (downloadInternVideo2Handler fs NetOutcome.timeout).fs.modelFileExists = false) := by
  have hne : status ≠ 200 := by
    intro h
    exact hstatus ⟨by omega, by omega⟩
  unfold downloadInternVideo2Handler
  simp [hfile, hne, removeCheckpointsDir]

/-- C5, witness: an HTTP 500 response over an empty store removes the
checkpoints directory and fails, as do a write error, a request error and a
timeout. -/
theorem C5_download_failure_cleanup_w :
    ((downloadInternVideo2Handler ⟨false, false, false⟩
        (NetOutcome.response 500 "Internal Server Error"
          StreamOutcome.finished)).result.success = false
      ∧ (downloadInternVideo2Handler ⟨false, false, false⟩
          (NetOutcome.response 500 "Internal Server Error"
            StreamOutcome.finished)).fs.checkpointsDirExists = false
      ∧ (downloadInternVideo2Handler ⟨false, false, false⟩
          (NetOutcome.response 500 "Internal Server Error"
            StreamOutcome.finished)).fs.modelFileExists = false)
  ∧ ((downloadInternVideo2Handler ⟨false, false, false⟩
        (NetOutcome.response 200 "Internal Server Error"
          (StreamOutcome.writeError "disk full"))).result.success = false
      ∧ (downloadInternVideo2Handler ⟨false, false, false⟩
          (NetOutcome.response 200 "Internal Server Error"
            (StreamOutcome.writeError "disk full"))).fs.checkpointsDirExists = false
      ∧ (downloadInternVideo2Handler ⟨false, false, false⟩
          (NetOutcome.response 200 "Internal Server Error"
            (StreamOutcome.writeError "disk full"))).fs.modelFileExists = false)
  ∧ ((downloadInternVideo2Handler ⟨false, false, false⟩
        (NetOutcome.requestError "disk full")).result.success = false
      ∧ (downloadInternVideo2Handler ⟨false, false, false⟩
          (NetOutcome.requestError "disk full")).fs.checkpointsDirExists = false
      ∧ (downloadInternVideo2Handler ⟨false, false, false⟩
          (NetOutcome.requestError "disk full")).fs.modelFileExists = false)
  ∧ ((downloadInternVideo2Handler ⟨false, false, false⟩
        NetOutcome.timeout).result.success = false
      ∧ (downloadInternVideo2Handler ⟨false, false, false⟩
          NetOutcome.timeout).fs.checkpointsDirExists = false
      ∧ (downloadInternVideo2Handler ⟨false, false, false⟩
          NetOutcome.timeout).fs.modelFileExists = false) :=
  C5_download_failure_cleanup ⟨false, false, false⟩ 500 "Internal Server Error"
    "disk full" StreamOutcome.finished rfl (by decide)

/-! ### C6 -/

/-- C6: the `check-model-files` handler reports `internvideo2 = true`
exactly when `access` succeeds on the exact path
`<storeDirectory>/checkpoints/InternVideo2_1B_S2.pth`, and `false` exactly
when `access` fails with any error; the handler is a total function, so it
never throws. -/
theorem C6_check_model_files_presence (fsAccess : String → Except String Unit)
    (storeDirectory : String) :
    ((checkModelFilesHandler fsAccess storeDirectory).internvideo2 = true
        ↔ fsAccess (modelFilePath storeDirectory) = Except.ok ())
  ∧ ((checkModelFilesHandler fsAccess storeDirectory).internvideo2 = false
        ↔ ∃ e, fsAccess (modelFilePath storeDirectory) = Except.error e) := by
  unfold checkModelFilesHandler
  cases h : fsAccess (modelFilePath storeDirectory) with
  | ok u => cases u; simp [h]
  | error e => simp [h]

/-! ### C7 -/

/-- C7, counterexample: `checkingService` is among the LoadingFlags busy
flags, it is false in the initial state, and the entry segment of
`checkServiceStatus` sets it to true — so the loading flags observable
during the call are changed by it. -/
theorem C7_check_status_sets_busy_flag_cex :
    initialHookState.flags.checkingService = false
  ∧ (checkServiceStatusEntry initialHookState).flags.checkingService = true :=
  ⟨rfl, rfl⟩

/-- C7 (amended): `checkServiceStatus` does set a busy flag — it raises
`checkingService` on entry and clears it in its `finally` — while leaving
the other four flags untouched; `checkInternVideo2Status` touches no
loading flag at all. -/
theorem C7_status_checks_flag_effects (g : HookState) (r : StatusResult)
    (r2 : IV2StatusResult) :
    (checkServiceStatusEntry g).flags.checkingService = true
  ∧ (checkServiceStatusEntry g).flags.starting = g.flags.starting
  ∧ (checkServiceStatusEntry g).flags.stopping = g.flags.stopping
  ∧ (checkServiceStatusEntry g).flags.loadingInternVideo2 = g.flags.loadingInternVideo2
  ∧ (checkServiceStatusEntry g).flags.releasingInternVideo2 = g.flags.releasingInternVideo2
  ∧ (checkServiceStatusSettle g r).flags.checkingService = false
  ∧ (checkServiceStatusSettle g r).flags.starting = g.flags.starting
  ∧ (checkServiceStatusSettle g r).flags.stopping = g.flags.stopping
  ∧ (checkServiceStatusSettle g r).flags.loadingInternVideo2 = g.flags.loadingInternVideo2
  ∧ (checkServiceStatusSettle g r).flags.releasingInternVideo2 = g.flags.releasingInternVideo2
  ∧ (checkInternVideo2StatusEntry g).flags = g.flags
  ∧ (checkInternVideo2StatusSettle g r2).flags = g.flags :=
  ⟨rfl, rfl, rfl, rfl, rfl, rfl, rfl, rfl, rfl, rfl, rfl, rfl⟩

/-! ### C8 -/

/-- C8: a probe hitting a network or connection failure is reported as "not
running", never escalated: `checkHealth` returns `false` on a fetch failure
(and is total, so it never throws), and `checkServiceStatus` on a failed
`systemStatus` result — or on the call throwing — sets both `isRunning` and
`internvideo2Loaded` to false and produces a state normally rather than
propagating the failure. -/
theorem C8_probe_failure_not_running (s : ServiceState) (e : Option String) :
    checkHealth FetchOutcome.networkError = false
  ∧ (checkServiceStatusUpdate s (StatusResult.err e)).isRunning = false
  ∧ (checkServiceStatusUpdate s (StatusResult.err e)).internvideo2Loaded = false
  ∧ (checkServiceStatusUpdate s StatusResult.thrown).isRunning = false
  ∧ (checkServiceStatusUpdate s StatusResult.thrown).internvideo2Loaded = false :=
  ⟨rfl, rfl, rfl, rfl, rfl⟩

/-! ### C9 -/

/-- C9: for every file, config and progress callback, the
`remote-backend:upload-video` handler returns `success: false` with the
fixed error text directing the frontend to use RemoteVideoService, and
issues zero network requests — the upload exposed through this IPC channel
can never succeed. -/
theorem C9_remote_upload_always_fails {α β : Type} (file : UploadFile) (config : α)
    (onProgress : β) :
    (remoteUploadVideoHandler file config onProgress).1.success = false
  ∧ (remoteUploadVideoHandler file config onProgress).1.error = some remoteUploadRefusal
  ∧ (remoteUploadVideoHandler file config onProgress).2 = 0 :=
  ⟨rfl, rfl, rfl⟩

/-! ### C10 -/

/-- C10, counterexample: a caller-supplied `scene_threshold` of `0` is not
preserved: both the upload config and the process config replace it by the
default `0.2` (JavaScript `||` treats `0` as absent), refuting "all other
caller-supplied configuration fields are preserved". -/
theorem C10_zero_threshold_overridden_cex :
    (uploadConfigOf { scene_threshold := some 0 }).scene_threshold = 0.2
  ∧ (processConfigOf { scene_threshold := some 0 }).scene_threshold = 0.2
  ∧ (0.2 : Rat) ≠ 0 := by
  refine ⟨rfl, rfl, by norm_num⟩

/-- C10 (amended): both `uploadVideo`'s upload config and the
`remote-backend:process-video` handler's process config force
`target_fps = 1` whatever the caller supplied, pass unknown extra fields
through unchanged, default `detect_scenes` (and, in the process config,
`generate_embeddings`) to true unless explicitly false, and preserve
`scene_threshold`, `min_duration` and `max_duration` only when the supplied
value is nonzero — an absent or zero value falls back to the defaults 0.2,
5.0 and 12.0 respectively. -/
theorem C10_config_merge (c : VideoConfig) :
    (uploadConfigOf c).target_fps = 1
  ∧ (processConfigOf c).target_fps = 1
  ∧ (uploadConfigOf c).extra = c.extra
  ∧ (processConfigOf c).extra = c.extra
  ∧ (uploadConfigOf c).detect_scenes = c.detect_scenes.getD true
  ∧ (processConfigOf c).detect_scenes = c.detect_scenes.getD true
  ∧ (uploadConfigOf c).generate_embeddings = c.generate_embeddings
  ∧ (processConfigOf c).generate_embeddings = c.generate_embeddings.getD true
  ∧ (∀ v : Rat, v ≠ 0 → c.scene_threshold = some v →
      (uploadConfigOf c).scene_threshold = v ∧ (processConfigOf c).scene_threshold = v)
  ∧ (c.scene_threshold = none ∨ c.scene_threshold = some 0 →
      (uploadConfigOf c).scene_threshold = 0.2 ∧ (processConfigOf c).scene_threshold = 0.2)
  ∧ (∀ v : Rat, v ≠ 0 → c.min_duration = some v →
      (uploadConfigOf c).min_duration = v ∧ (processConfigOf c).min_duration = v)
  ∧ (c.min_duration = none ∨ c.min_duration = some 0 →
      (uploadConfigOf c).min_duration = 5 ∧ (processConfigOf c).min_duration = 5)
  ∧ (∀ v : Rat, v ≠ 0 → c.max_duration = some v →
      (uploadConfigOf c).max_duration = v ∧ (processConfigOf c).max_duration = v)
  ∧ (c.max_duration = none ∨ c.max_duration = some 0 →
      (uploadConfigOf c).max_duration = 12 ∧ (processConfigOf c).max_duration = 12) := by
  refine ⟨rfl, rfl, rfl, rfl, jsNotFalse_getD _, jsNotFalse_getD _, rfl,
    jsNotFalse_getD _, ?_, ?_, ?_, ?_, ?_, ?_⟩
  · intro v hv hc
    constructor <;> simp [uploadConfigOf, processConfigOf, jsOrNum, hc, hv]
  · rintro (h | h) <;> constructor <;>
      simp [uploadConfigOf, processConfigOf, jsOrNum, h]
  · intro v hv hc
    constructor <;> simp [uploadConfigOf, processConfigOf, jsOrNum, hc, hv]
  · rintro (h | h) <;> constructor <;>
      simp [uploadConfigOf, processConfigOf, jsOrNum, h]
  · intro v hv hc
    constructor <;> simp [uploadConfigOf, processConfigOf, jsOrNum, hc, hv]
  · rintro (h | h) <;> constructor <;>
      simp [uploadConfigOf, processConfigOf, jsOrNum, h]

end VideoRAG
